import Mathlib

/-
  Verification of the scenario-transformation engine of the transport
  emissions calculator (src/app.py).  The engine is embedded shallowly:
  pandas rows become functions from the mode enumeration to rationals,
  in-place row mutation becomes functional record update, and the Python
  for-loops over mode lists become List.foldl over the same lists.
  All arithmetic is carried out over the rationals.
-/

namespace TE

/-- Travel modes of the model: the four private or active modes followed by
the four public transit modes, exactly the column identifiers used by the
source tables. -/
inductive Mode
  | passenger_light
  | electric_light
  | walking
  | cycling
  | diesel_bus
  | electric_bus
  | heavy_rail
  | light_rail
deriving DecidableEq

open Mode

/-- The private_modes list built in data_initialisation. -/
def private_modes : List Mode := [passenger_light, electric_light, walking, cycling]

/-- The pt_modes list built in data_initialisation. -/
def pt_modes : List Mode := [diesel_bus, electric_bus, heavy_rail, light_rail]

/-- The all_modes list built in data_initialisation. -/
def all_modes : List Mode :=
  [passenger_light, electric_light, walking, cycling, diesel_bus, electric_bus, heavy_rail, light_rail]

/-- The base_numbers table: one row per period and metric, one column per mode. -/
structure Dataset where
  pkt_2018 : Mode → ℚ
  vkt_2018 : Mode → ℚ
  pkt_2030_baseline : Mode → ℚ
  vkt_2030_baseline : Mode → ℚ
  pkt_2030_scenario : Mode → ℚ
  vkt_2030_scenario : Mode → ℚ
  emissions_2018 : Mode → ℚ
  emissions_2030_baseline : Mode → ℚ
  emissions_2030_scenario : Mode → ℚ

/-- The emission_factors table: one row per period, one column per mode. -/
structure EmissionFactors where
  values_2018 : Mode → ℚ
  values_2030_baseline : Mode → ℚ
  values_2030_scenario : Mode → ℚ

/-- The scalar entries of the numbers dictionary built by data_initialisation
(the mode-group lists are the top-level list constants above). -/
structure Numbers where
  pkt_annualisation : ℚ
  vkt_annualisation : ℚ
  car_occupancy : ℚ
  mode_sum_pkt : ℚ
  mode_pkt_no_bike : ℚ
  bus_lifespan : ℚ
  car_ownership_2018 : ℚ

/-- data_initialisation from src/app.py: derives the proportionality
denominators from the 2030-baseline pkt row and fixes the static constants. -/
def data_initialisation (base_numbers : Dataset) : Numbers where
  pkt_annualisation := 2250
  vkt_annualisation := 332
  car_occupancy := 1.58
  mode_sum_pkt := (private_modes.map base_numbers.pkt_2030_baseline).sum
  mode_pkt_no_bike :=
    ((private_modes.filter fun m => m ≠ cycling).map base_numbers.pkt_2030_baseline).sum
  bus_lifespan := 15
  car_ownership_2018 := 1261016

/-- One row of the pt_details table: the service characteristics of a
candidate public-transport project. -/
structure Project where
  primary_mode : Mode
  peak_freq : ℚ
  off_peak_freq : ℚ
  vehicle_capacity : ℚ
  distance : ℚ
  num_peak_hrs : ℚ
  num_hours : ℚ

/-- The pkt and vkt effect rows a single project contributes, one value per
mode (the rows of pt_effects_pkt and pt_effects_vkt for that project). -/
structure EffectRows where
  pkt : Mode → ℚ
  vkt : Mode → ℚ

/-- Body of the private-modes loop of pt_proj_effects: writes the pkt cell
for the given mode reading the current primary-mode cell, then writes the
corresponding vkt cell from the pkt cell just written. -/
def pt_effect_step (numbers : Numbers) (d : Dataset) (p : Project)
    (st : (Mode → ℚ) × (Mode → ℚ)) (mode : Mode) : (Mode → ℚ) × (Mode → ℚ) :=
  let tp := Function.update st.1 mode
    (- d.pkt_2030_baseline mode / numbers.mode_sum_pkt * st.1 p.primary_mode)
  let tv :=
    if mode = passenger_light ∨ mode = electric_light then
      Function.update st.2 mode (tp mode / numbers.car_occupancy)
    else if mode = walking ∨ mode = cycling then
      Function.update st.2 mode (tp mode)
    else st.2
  (tp, tv)

/-- Body of the transit-modes loop of pt_proj_effects: zeroes the cell of
every transit mode other than the primary mode of the project. -/
def pt_zero_step (p : Project) (t : Mode → ℚ) (mode : Mode) : Mode → ℚ :=
  if mode ≠ p.primary_mode then Function.update t mode 0 else t

/-- The pkt effect of a project on its primary mode, as computed by
pt_proj_effects: vehicles per peak hour times route distance times the
passenger annualisation factor times peak vehicle capacity, doubled for the
two directions and doubled again for the two AM peak hours. -/
def primary_pkt_effect (numbers : Numbers) (p : Project) : ℚ :=
  60 / p.peak_freq * p.distance * numbers.pkt_annualisation * p.vehicle_capacity * 2 * 2

/-- The vkt effect of a project on its primary mode, as computed by
pt_proj_effects: peak and off-peak vehicle trips per day times route
distance times the vehicle annualisation factor, doubled for the two
directions. -/
def primary_vkt_effect (numbers : Numbers) (p : Project) : ℚ :=
  (60 / p.peak_freq * p.num_peak_hrs + 60 / p.off_peak_freq * (p.num_hours - p.num_peak_hrs))
    * p.distance * numbers.vkt_annualisation * 2

/-- pt_proj_effects from src/app.py, restricted to a single project: builds
the pkt and vkt effect rows.  Unwritten DataFrame cells hold a missing value
in the source; it is modelled by a 0 placeholder, which is never observed
because every cell of the returned rows is written before being read. -/
def pt_effects_rows (numbers : Numbers) (d : Dataset) (p : Project) : EffectRows :=
  let pkt0 : Mode → ℚ :=
    Function.update (fun _ => 0) p.primary_mode (primary_pkt_effect numbers p)
  let vkt0 : Mode → ℚ :=
    Function.update (fun _ => 0) p.primary_mode (primary_vkt_effect numbers p)
  let st := List.foldl (pt_effect_step numbers d p) (pkt0, vkt0) private_modes
  { pkt := List.foldl (pt_zero_step p) st.1 pt_modes
    vkt := List.foldl (pt_zero_step p) st.2 pt_modes }

/-- pt_projects_apply from src/app.py: adds the summed effect rows of the
selected projects to the scenario rows; no-op for an empty selection.  The
effect rows are the ones precomputed from the master dataset at startup. -/
def pt_projects_apply (numbers : Numbers) (master d : Dataset)
    (pt_included : List Project) : Dataset :=
  if pt_included.isEmpty then d
  else
    { d with
      vkt_2030_scenario := fun m =>
        d.vkt_2030_scenario m
          + (pt_included.map fun p => (pt_effects_rows numbers master p).vkt m).sum
      pkt_2030_scenario := fun m =>
        d.pkt_2030_scenario m
          + (pt_included.map fun p => (pt_effects_rows numbers master p).pkt m).sum }

/-- Body of the private-modes loop of bus_ridership_changes. -/
def bus_step (numbers : Numbers) (bus_change : ℚ) (acc : Dataset) (mode : Mode) : Dataset :=
  let effect := - acc.pkt_2030_baseline mode / numbers.mode_sum_pkt * bus_change
  let acc1 := { acc with
    pkt_2030_scenario :=
      Function.update acc.pkt_2030_scenario mode (acc.pkt_2030_scenario mode + effect) }
  if mode = passenger_light ∨ mode = electric_light then
    { acc1 with
      vkt_2030_scenario := Function.update acc1.vkt_2030_scenario mode
        (acc1.vkt_2030_scenario mode + effect / numbers.car_occupancy) }
  else if mode = walking ∨ mode = cycling then
    { acc1 with
      vkt_2030_scenario := Function.update acc1.vkt_2030_scenario mode
        (acc1.vkt_2030_scenario mode + effect) }
  else acc1

/-- bus_ridership_changes from src/app.py. -/
def bus_ridership_changes (numbers : Numbers) (d : Dataset) (bus_prop_increase : ℚ) : Dataset :=
  if bus_prop_increase > 0 then
    let bus_change := d.pkt_2030_baseline diesel_bus * bus_prop_increase
    let d1 := { d with
      pkt_2030_scenario := Function.update d.pkt_2030_scenario diesel_bus
        (d.pkt_2030_scenario diesel_bus + bus_change) }
    List.foldl (bus_step numbers bus_change) d1 private_modes
  else d

/-- Body of the private-modes loop of cycling_changes.  The second component
of the state models the Python loop variable effect, which is assigned only
when the mode is not cycling and persists across iterations, so at the
cycling iteration the value computed for the previous mode is read back. -/
def cycling_step (numbers : Numbers) (cycling_change : ℚ)
    (st : Dataset × ℚ) (mode : Mode) : Dataset × ℚ :=
  let acc := st.1
  let effect :=
    if mode ≠ cycling then
      - acc.pkt_2030_baseline mode / numbers.mode_pkt_no_bike * cycling_change
    else st.2
  let acc1 :=
    if mode ≠ cycling then
      { acc with
        pkt_2030_scenario :=
          Function.update acc.pkt_2030_scenario mode (acc.pkt_2030_scenario mode + effect) }
    else acc
  let acc2 :=
    if mode = passenger_light ∨ mode = electric_light then
      { acc1 with
        vkt_2030_scenario := Function.update acc1.vkt_2030_scenario mode
          (acc1.vkt_2030_scenario mode + effect / numbers.car_occupancy) }
    else if mode = walking ∨ mode = cycling then
      { acc1 with
        vkt_2030_scenario := Function.update acc1.vkt_2030_scenario mode
          (acc1.vkt_2030_scenario mode + effect) }
    else acc1
  (acc2, effect)

/-- cycling_changes from src/app.py.  The initial 0 in the fold state models
the Python variable effect before its first assignment; it is never read
because cycling is not the first entry of private_modes. -/
def cycling_changes (numbers : Numbers) (d : Dataset) (cycling_included : ℚ) : Dataset :=
  if cycling_included > 0 then
    let cycling_change := d.pkt_2030_baseline cycling * (cycling_included - 1)
    let d1 := { d with
      pkt_2030_scenario := Function.update d.pkt_2030_scenario cycling
        (d.pkt_2030_scenario cycling + cycling_change) }
    (List.foldl (cycling_step numbers cycling_change) (d1, 0) private_modes).1
  else d

/-- bus_electric from src/app.py. -/
def bus_electric (numbers : Numbers) (d : Dataset) (bus_electrification_included : ℚ) : Dataset :=
  if bus_electrification_included > 2019 then
    let prop := (2030 - bus_electrification_included) / numbers.bus_lifespan
    let bus_vkt_shift := d.vkt_2030_scenario diesel_bus * prop
    let d1 := { d with
      vkt_2030_scenario :=
        Function.update
          (Function.update d.vkt_2030_scenario diesel_bus
            (d.vkt_2030_scenario diesel_bus + - bus_vkt_shift))
          electric_bus (d.vkt_2030_scenario electric_bus + bus_vkt_shift) }
    let bus_pkt_shift := d1.pkt_2030_scenario diesel_bus * prop
    { d1 with
      pkt_2030_scenario :=
        Function.update
          (Function.update d1.pkt_2030_scenario diesel_bus
            (d1.pkt_2030_scenario diesel_bus + - bus_pkt_shift))
          electric_bus (d1.pkt_2030_scenario electric_bus + bus_pkt_shift) }
  else d

/-- car_electric from src/app.py. -/
def car_electric (d : Dataset) (car_electrification_included : ℚ) : Dataset :=
  if car_electrification_included > 0 then
    let car_vkt_shift := d.vkt_2030_scenario passenger_light * car_electrification_included
    let d1 := { d with
      vkt_2030_scenario :=
        Function.update
          (Function.update d.vkt_2030_scenario passenger_light
            (d.vkt_2030_scenario passenger_light + - car_vkt_shift))
          electric_light (d.vkt_2030_scenario electric_light + car_vkt_shift) }
    let car_pkt_shift := d1.pkt_2030_scenario passenger_light * car_electrification_included
    { d1 with
      pkt_2030_scenario :=
        Function.update
          (Function.update d1.pkt_2030_scenario passenger_light
            (d1.pkt_2030_scenario passenger_light + - car_pkt_shift))
          electric_light (d1.pkt_2030_scenario electric_light + car_pkt_shift) }
  else d

/-- car_occupancy from src/app.py: an override of the two light-vehicle vkt
cells when the occupancy value is positive. -/
def car_occupancy (d : Dataset) (occupancy_included : ℚ) : Dataset :=
  if occupancy_included > 0 then
    { d with
      vkt_2030_scenario :=
        Function.update
          (Function.update d.vkt_2030_scenario passenger_light
            (d.pkt_2030_scenario passenger_light / occupancy_included))
          electric_light (d.pkt_2030_scenario electric_light / occupancy_included) }
  else d

/-- calculate_emissions from src/app.py: recomputes the scenario emissions
row from the scenario emission-factor row and the scenario vkt row, then
scales the passenger_light cell by one minus the emission-standard lever. -/
def calculate_emissions (d : Dataset) (emission_factors : EmissionFactors)
    (car_emission_change : ℚ) : Dataset :=
  let e : Mode → ℚ := fun m => emission_factors.values_2030_scenario m * d.vkt_2030_scenario m
  { d with
    emissions_2030_scenario :=
      Function.update e passenger_light (e passenger_light * (1 - car_emission_change)) }

/-- Body of the all-modes loop of covid_trips.  The source tests membership
of the mode in a list naming light_fleet and electric_light; light_fleet
matches no mode identifier, so only electric_light takes that branch and
passenger_light falls through with its vkt cell untouched. -/
def covid_step (covid : ℚ) (numbers : Numbers) (acc : Dataset) (mode : Mode) : Dataset :=
  let acc1 := { acc with
    pkt_2030_scenario := Function.update acc.pkt_2030_scenario mode
      ((1 - covid / 100) * acc.pkt_2030_scenario mode) }
  if mode = cycling ∨ mode = walking then
    { acc1 with
      vkt_2030_scenario :=
        Function.update acc1.vkt_2030_scenario mode (acc1.pkt_2030_scenario mode) }
  else if mode = electric_light then
    { acc1 with
      vkt_2030_scenario :=
        Function.update acc1.vkt_2030_scenario mode
          (acc1.pkt_2030_scenario mode / numbers.car_occupancy) }
  else acc1

/-- covid_trips from src/app.py. -/
def covid_trips (d : Dataset) (covid : ℚ) (numbers : Numbers) : Dataset :=
  List.foldl (covid_step covid numbers) d all_modes

/-- update_graph from src/app.py, restricted to its computational content:
the ordered pipeline of stages run against a fresh copy of the master
dataset.  The project selection is given as the list of selected project
descriptors; the project effect rows are computed from the master dataset
exactly as the startup precomputation does. -/
def update_graph (master : Dataset) (emission_factors : EmissionFactors)
    (cycling_included bus_prop_increase bus_electrification_included
      occupancy_included car_electrification_included : ℚ)
    (pt_included : List Project) (car_emission_change covid : ℚ) : Dataset :=
  let numbers := data_initialisation master
  let occupancy_included := occupancy_included / 100
  let car_electrification_included := car_electrification_included / 100
  let base_numbers := master
  let base_numbers := pt_projects_apply numbers master base_numbers pt_included
  let base_numbers := bus_ridership_changes numbers base_numbers bus_prop_increase
  let base_numbers := cycling_changes numbers base_numbers cycling_included
  let base_numbers := bus_electric numbers base_numbers bus_electrification_included
  let base_numbers := car_electric base_numbers car_electrification_included
  let base_numbers := covid_trips base_numbers covid numbers
  let base_numbers := car_occupancy base_numbers occupancy_included
  calculate_emissions base_numbers emission_factors car_emission_change

/-- A concrete dataset with round baseline figures, used to instantiate the
theorems on explicit inputs.  Private baseline pkt totals 200000 and the
diesel-bus baseline pkt is 100000. -/
def sampleData : Dataset where
  pkt_2018 := fun _ => 500
  vkt_2018 := fun _ => 500
  pkt_2030_baseline := fun m =>
    match m with
    | Mode.passenger_light => 100000
    | Mode.electric_light => 50000
    | Mode.walking => 30000
    | Mode.cycling => 20000
    | Mode.diesel_bus => 100000
    | _ => 10000
  vkt_2030_baseline := fun _ => 1000
  pkt_2030_scenario := fun m =>
    match m with
    | Mode.passenger_light => 100000
    | Mode.electric_light => 50000
    | Mode.walking => 30000
    | Mode.cycling => 20000
    | Mode.diesel_bus => 100000
    | _ => 10000
  vkt_2030_scenario := fun _ => 1000
  emissions_2018 := fun _ => 0
  emissions_2030_baseline := fun _ => 0
  emissions_2030_scenario := fun _ => 0

/-- A concrete dataset whose scenario rows copy the baseline rows, with a
baseline electric_light vkt equal to its pkt of 158 (hence different from
158 divided by the 1.58 car occupancy). -/
def cexData1 : Dataset where
  pkt_2018 := fun _ => 158
  vkt_2018 := fun _ => 158
  pkt_2030_baseline := fun _ => 158
  vkt_2030_baseline := fun _ => 158
  pkt_2030_scenario := fun _ => 158
  vkt_2030_scenario := fun _ => 158
  emissions_2018 := fun _ => 0
  emissions_2030_baseline := fun _ => 0
  emissions_2030_scenario := fun _ => 0

/-- A concrete emission-factor table with all factors equal to 1. -/
def cexEF1 : EmissionFactors where
  values_2018 := fun _ => 1
  values_2030_baseline := fun _ => 1
  values_2030_scenario := fun _ => 1

/-- A concrete dataset whose baseline rows are internally consistent with
the recomputations the pipeline performs: walking and cycling vkt equal
their pkt, and electric_light vkt equals its pkt divided by the 1.58 car
occupancy; scenario rows copy the baseline rows. -/
def consistData : Dataset where
  pkt_2018 := fun _ => 7
  vkt_2018 := fun _ => 7
  pkt_2030_baseline := fun m =>
    match m with
    | Mode.passenger_light => 300
    | Mode.electric_light => 158
    | Mode.walking => 10
    | Mode.cycling => 20
    | _ => 40
  vkt_2030_baseline := fun m =>
    match m with
    | Mode.passenger_light => 50
    | Mode.electric_light => 100
    | Mode.walking => 10
    | Mode.cycling => 20
    | _ => 30
  pkt_2030_scenario := fun m =>
    match m with
    | Mode.passenger_light => 300
    | Mode.electric_light => 158
    | Mode.walking => 10
    | Mode.cycling => 20
    | _ => 40
  vkt_2030_scenario := fun m =>
    match m with
    | Mode.passenger_light => 50
    | Mode.electric_light => 100
    | Mode.walking => 10
    | Mode.cycling => 20
    | _ => 30
  emissions_2018 := fun _ => 0
  emissions_2030_baseline := fun _ => 0
  emissions_2030_scenario := fun _ => 0

/-- A concrete emission-factor table whose scenario row equals its baseline
row. -/
def consistEF : EmissionFactors where
  values_2018 := fun _ => 3
  values_2030_baseline := fun _ => 2
  values_2030_scenario := fun _ => 2

/-- A concrete dataset whose scenario electric_light vkt of 7 differs from
its scenario electric_light pkt of 158 divided by the 1.58 car occupancy. -/
def cexData2 : Dataset where
  pkt_2018 := fun _ => 158
  vkt_2018 := fun _ => 7
  pkt_2030_baseline := fun _ => 158
  vkt_2030_baseline := fun _ => 7
  pkt_2030_scenario := fun _ => 158
  vkt_2030_scenario := fun _ => 7
  emissions_2018 := fun _ => 0
  emissions_2030_baseline := fun _ => 0
  emissions_2030_scenario := fun _ => 0

/-- A concrete dataset for exercising the cycling stage: private baseline
pkt values 100, 50, 30 and 20, so the private total excluding cycling is
180; every scenario vkt cell is 20. -/
def failData3 : Dataset where
  pkt_2018 := fun _ => 10
  vkt_2018 := fun _ => 10
  pkt_2030_baseline := fun m =>
    match m with
    | Mode.passenger_light => 100
    | Mode.electric_light => 50
    | Mode.walking => 30
    | Mode.cycling => 20
    | _ => 10
  vkt_2030_baseline := fun _ => 20
  pkt_2030_scenario := fun m =>
    match m with
    | Mode.passenger_light => 100
    | Mode.electric_light => 50
    | Mode.walking => 30
    | Mode.cycling => 20
    | _ => 10
  vkt_2030_scenario := fun _ => 20
  emissions_2018 := fun _ => 0
  emissions_2030_baseline := fun _ => 0
  emissions_2030_scenario := fun _ => 0

/-- A concrete dataset for the electrification stages, with a scenario
passenger_light vkt of one million. -/
def elecData : Dataset where
  pkt_2018 := fun _ => 10
  vkt_2018 := fun _ => 10
  pkt_2030_baseline := fun _ => 10
  vkt_2030_baseline := fun _ => 10
  pkt_2030_scenario := fun m =>
    match m with
    | Mode.diesel_bus => 500
    | Mode.electric_bus => 100
    | Mode.passenger_light => 80
    | _ => 10
  vkt_2030_scenario := fun m =>
    match m with
    | Mode.passenger_light => 1000000
    | Mode.electric_light => 0
    | Mode.diesel_bus => 600
    | Mode.electric_bus => 0
    | _ => 10
  emissions_2018 := fun _ => 0
  emissions_2030_baseline := fun _ => 0
  emissions_2030_scenario := fun _ => 0

/-- A concrete transit project with diesel_bus as its primary mode and
positive service characteristics. -/
def sampleProject : Project where
  primary_mode := Mode.diesel_bus
  peak_freq := 10
  off_peak_freq := 20
  vehicle_capacity := 50
  distance := 10
  num_peak_hrs := 4
  num_hours := 18

/-- The six read-only rows, 2018 and 2030-baseline, agree between two
datasets: the frame every pipeline stage must preserve. -/
def base_rows_eq (a b : Dataset) : Prop :=
  a.pkt_2018 = b.pkt_2018 ∧ a.vkt_2018 = b.vkt_2018 ∧
  a.pkt_2030_baseline = b.pkt_2030_baseline ∧ a.vkt_2030_baseline = b.vkt_2030_baseline ∧
  a.emissions_2018 = b.emissions_2018 ∧ a.emissions_2030_baseline = b.emissions_2030_baseline

/-! Evaluation lemmas for the bus-ridership stage. -/

lemma bus_noop (n : Numbers) (d : Dataset) (r : ℚ) (hr : r ≤ 0) :
    bus_ridership_changes n d r = d := by
  unfold bus_ridership_changes
  rw [if_neg (not_lt.mpr hr)]

lemma bus_pkt_diesel (n : Numbers) (d : Dataset) (r : ℚ) :
    (bus_ridership_changes n d r).pkt_2030_scenario diesel_bus =
      d.pkt_2030_scenario diesel_bus +
        (if 0 < r then d.pkt_2030_baseline diesel_bus * r else 0) := by
  by_cases hr : 0 < r <;>
    simp [bus_ridership_changes, hr, private_modes, bus_step, Function.update]

lemma bus_pkt_electric (n : Numbers) (d : Dataset) (r : ℚ) :
    (bus_ridership_changes n d r).pkt_2030_scenario electric_bus =
      d.pkt_2030_scenario electric_bus := by
  by_cases hr : 0 < r <;>
    simp [bus_ridership_changes, hr, private_modes, bus_step, Function.update]

lemma bus_pkt_private (n : Numbers) (d : Dataset) (r : ℚ) (m : Mode)
    (hm : m ∈ private_modes) :
    (bus_ridership_changes n d r).pkt_2030_scenario m =
      d.pkt_2030_scenario m -
        (if 0 < r then
          d.pkt_2030_baseline m / n.mode_sum_pkt * (d.pkt_2030_baseline diesel_bus * r)
        else 0) := by
  simp only [private_modes, List.mem_cons, List.not_mem_nil, or_false] at hm
  by_cases hr : 0 < r <;>
    rcases hm with rfl | rfl | rfl | rfl <;>
      (simp [bus_ridership_changes, hr, private_modes, bus_step, Function.update]; try ring)

lemma bus_vkt_light (n : Numbers) (d : Dataset) (r : ℚ) (m : Mode)
    (hm : m = passenger_light ∨ m = electric_light) (hr : 0 < r) :
    (bus_ridership_changes n d r).vkt_2030_scenario m =
      d.vkt_2030_scenario m -
        d.pkt_2030_baseline m / n.mode_sum_pkt * (d.pkt_2030_baseline diesel_bus * r)
          / n.car_occupancy := by
  rcases hm with rfl | rfl <;>
    (simp [bus_ridership_changes, hr, private_modes, bus_step, Function.update]; ring)

lemma bus_vkt_active (n : Numbers) (d : Dataset) (r : ℚ) (m : Mode)
    (hm : m = walking ∨ m = cycling) (hr : 0 < r) :
    (bus_ridership_changes n d r).vkt_2030_scenario m =
      d.vkt_2030_scenario m -
        d.pkt_2030_baseline m / n.mode_sum_pkt * (d.pkt_2030_baseline diesel_bus * r) := by
  rcases hm with rfl | rfl <;>
    (simp [bus_ridership_changes, hr, private_modes, bus_step, Function.update]; ring)

/-! Evaluation lemmas for the trip-reduction stage. -/

lemma covid_pkt (d : Dataset) (p : ℚ) (n : Numbers) (m : Mode) :
    (covid_trips d p n).pkt_2030_scenario m =
      (1 - p / 100) * d.pkt_2030_scenario m := by
  cases m <;> simp [covid_trips, all_modes, covid_step, Function.update]

lemma covid_vkt_untouched (d : Dataset) (p : ℚ) (n : Numbers) (m : Mode)
    (hm : m ∈ [passenger_light, diesel_bus, electric_bus, heavy_rail, light_rail]) :
    (covid_trips d p n).vkt_2030_scenario m = d.vkt_2030_scenario m := by
  simp only [List.mem_cons, List.not_mem_nil, or_false] at hm
  rcases hm with rfl | rfl | rfl | rfl | rfl <;>
    simp [covid_trips, all_modes, covid_step, Function.update]

lemma covid_vkt_active (d : Dataset) (p : ℚ) (n : Numbers) (m : Mode)
    (hm : m = walking ∨ m = cycling) :
    (covid_trips d p n).vkt_2030_scenario m = (1 - p / 100) * d.pkt_2030_scenario m := by
  rcases hm with rfl | rfl <;>
    simp [covid_trips, all_modes, covid_step, Function.update]

lemma covid_vkt_el (d : Dataset) (p : ℚ) (n : Numbers) :
    (covid_trips d p n).vkt_2030_scenario electric_light =
      (1 - p / 100) * d.pkt_2030_scenario electric_light / n.car_occupancy := by
  simp [covid_trips, all_modes, covid_step, Function.update]

/-! Claims about the bus-ridership stage. -/

/-- Claim C5: for every dataset and every bus-ridership increase r, the
bus-ridership stage adds the baseline diesel-bus pkt times r to the
scenario diesel-bus pkt and subtracts from each private or active mode its
baseline share of that shift, with the vkt change equal to the pkt change
divided by car occupancy for the two light modes and equal to it for
walking and cycling, when r is positive; it leaves the dataset unchanged
when r is not positive. -/
theorem claim_c5 (d : Dataset) (r : ℚ) :
    (0 < r →
      ((bus_ridership_changes (data_initialisation d) d r).pkt_2030_scenario diesel_bus =
        d.pkt_2030_scenario diesel_bus + d.pkt_2030_baseline diesel_bus * r) ∧
      (∀ m, m ∈ private_modes →
        (bus_ridership_changes (data_initialisation d) d r).pkt_2030_scenario m =
          d.pkt_2030_scenario m -
            d.pkt_2030_baseline m / (data_initialisation d).mode_sum_pkt
              * (d.pkt_2030_baseline diesel_bus * r)) ∧
      (∀ m, m = passenger_light ∨ m = electric_light →
        (bus_ridership_changes (data_initialisation d) d r).vkt_2030_scenario m =
          d.vkt_2030_scenario m -
            d.pkt_2030_baseline m / (data_initialisation d).mode_sum_pkt
              * (d.pkt_2030_baseline diesel_bus * r) / (data_initialisation d).car_occupancy) ∧
      (∀ m, m = walking ∨ m = cycling →
        (bus_ridership_changes (data_initialisation d) d r).vkt_2030_scenario m =
          d.vkt_2030_scenario m -
            d.pkt_2030_baseline m / (data_initialisation d).mode_sum_pkt
              * (d.pkt_2030_baseline diesel_bus * r))) ∧
    (r ≤ 0 → bus_ridership_changes (data_initialisation d) d r = d) := by
  constructor
  · intro hr
    refine ⟨?_, ?_, ?_, ?_⟩
    · rw [bus_pkt_diesel, if_pos hr]
    · intro m hm
      rw [bus_pkt_private _ _ _ _ hm, if_pos hr]
    · intro m hm
      exact bus_vkt_light _ _ _ _ hm hr
    · intro m hm
      exact bus_vkt_active _ _ _ _ hm hr
  · intro hr
    exact bus_noop _ _ _ hr

/-- Witness for claim C5, at the concrete scenario of the spec: with a
baseline diesel-bus pkt of 100000 and a lever of 0.4, exactly 40000 is
added to the scenario diesel-bus pkt, and the passenger_light mode loses
its half share of the private total, 20000. -/
theorem claim_c5_witness :
    (bus_ridership_changes (data_initialisation sampleData) sampleData
      (2 / 5)).pkt_2030_scenario diesel_bus = 140000 ∧
    (bus_ridership_changes (data_initialisation sampleData) sampleData
      (2 / 5)).pkt_2030_scenario passenger_light = 80000 := by
  have h := (claim_c5 sampleData (2 / 5)).1 (by norm_num)
  constructor
  · rw [h.1]
    norm_num [sampleData]
  · rw [h.2.1 passenger_light (by decide)]
    norm_num [sampleData, data_initialisation, private_modes]

/-- Claim C9: with non-negative baseline pkt values and a positive private
pkt denominator, the scenario diesel-bus and electric-bus pkt produced by
the bus-ridership stage are monotone non-decreasing in the lever, and every
private or active mode scenario pkt is monotone non-increasing in it. -/
theorem claim_c9 (d : Dataset) (r1 r2 : ℚ)
    (hb : ∀ m, 0 ≤ d.pkt_2030_baseline m)
    (hS : 0 < (data_initialisation d).mode_sum_pkt)
    (hr : r1 ≤ r2) :
    ((bus_ridership_changes (data_initialisation d) d r1).pkt_2030_scenario diesel_bus ≤
      (bus_ridership_changes (data_initialisation d) d r2).pkt_2030_scenario diesel_bus) ∧
    ((bus_ridership_changes (data_initialisation d) d r1).pkt_2030_scenario electric_bus ≤
      (bus_ridership_changes (data_initialisation d) d r2).pkt_2030_scenario electric_bus) ∧
    (∀ m, m ∈ private_modes →
      (bus_ridership_changes (data_initialisation d) d r2).pkt_2030_scenario m ≤
        (bus_ridership_changes (data_initialisation d) d r1).pkt_2030_scenario m) := by
  refine ⟨?_, ?_, ?_⟩
  · rw [bus_pkt_diesel, bus_pkt_diesel]
    have h : (if 0 < r1 then d.pkt_2030_baseline diesel_bus * r1 else 0) ≤
        (if 0 < r2 then d.pkt_2030_baseline diesel_bus * r2 else 0) := by
      split_ifs with h1 h2 h2
      · exact mul_le_mul_of_nonneg_left hr (hb diesel_bus)
      · exact absurd (h1.trans_le hr) h2
      · exact mul_nonneg (hb diesel_bus) h2.le
      · exact le_refl 0
    linarith
  · rw [bus_pkt_electric, bus_pkt_electric]
  · intro m hm
    rw [bus_pkt_private _ _ _ _ hm, bus_pkt_private _ _ _ _ hm]
    have hc : 0 ≤ d.pkt_2030_baseline m / (data_initialisation d).mode_sum_pkt :=
      div_nonneg (hb m) hS.le
    have h : (if 0 < r1 then
        d.pkt_2030_baseline m / (data_initialisation d).mode_sum_pkt
          * (d.pkt_2030_baseline diesel_bus * r1) else 0) ≤
        (if 0 < r2 then
          d.pkt_2030_baseline m / (data_initialisation d).mode_sum_pkt
            * (d.pkt_2030_baseline diesel_bus * r2) else 0) := by
      split_ifs with h1 h2 h2
      · exact mul_le_mul_of_nonneg_left
          (mul_le_mul_of_nonneg_left hr (hb diesel_bus)) hc
      · exact absurd (h1.trans_le hr) h2
      · exact mul_nonneg hc (mul_nonneg (hb diesel_bus) h2.le)
      · exact le_refl 0
    linarith

/-- Witness for claim C9 at a concrete dataset and lever pair: raising the
lever from 0.1 to 0.4 does not increase the scenario walking pkt. -/
theorem claim_c9_witness :
    (bus_ridership_changes (data_initialisation sampleData) sampleData
      (2 / 5)).pkt_2030_scenario walking ≤
      (bus_ridership_changes (data_initialisation sampleData) sampleData
        (1 / 10)).pkt_2030_scenario walking := by
  exact (claim_c9 sampleData (1 / 10) (2 / 5)
    (fun m => by cases m <;> norm_num [sampleData])
    (by norm_num [sampleData, data_initialisation, private_modes])
    (by norm_num)).2.2 walking (by decide)

/-! Claims about the trip-reduction stage. -/

/-- Claim C2 counterexample: the trip-reduction stage does not leave the
scenario vkt of both light-vehicle modes unchanged: on a dataset with a
scenario electric_light vkt of 7 and pkt of 158, the stage at a reduction
of 0 rewrites the electric_light vkt to 100. -/
theorem claim_c2_cex :
    (covid_trips cexData2 0 (data_initialisation cexData2)).vkt_2030_scenario electric_light ≠
      cexData2.vkt_2030_scenario electric_light := by
  rw [covid_vkt_el]
  norm_num [cexData2, data_initialisation]

/-- Claim C2 as amended: the trip-reduction stage multiplies the scenario
pkt of every mode by one minus p over 100, sets the scenario vkt of walking
and cycling to their new pkt, leaves the scenario vkt of passenger_light
unchanged, and sets the scenario vkt of electric_light to its new pkt
divided by the car occupancy (the recompute is a no-op only for
passenger_light, whose identifier the source misspells as light_fleet). -/
theorem claim_c2_amended (d : Dataset) (p : ℚ) (n : Numbers) :
    (∀ m, (covid_trips d p n).pkt_2030_scenario m =
      (1 - p / 100) * d.pkt_2030_scenario m) ∧
    ((covid_trips d p n).vkt_2030_scenario walking =
      (1 - p / 100) * d.pkt_2030_scenario walking) ∧
    ((covid_trips d p n).vkt_2030_scenario cycling =
      (1 - p / 100) * d.pkt_2030_scenario cycling) ∧
    ((covid_trips d p n).vkt_2030_scenario passenger_light =
      d.vkt_2030_scenario passenger_light) ∧
    ((covid_trips d p n).vkt_2030_scenario electric_light =
      (1 - p / 100) * d.pkt_2030_scenario electric_light / n.car_occupancy) := by
  refine ⟨covid_pkt d p n, ?_, ?_, ?_, covid_vkt_el d p n⟩
  · exact covid_vkt_active d p n walking (Or.inl rfl)
  · exact covid_vkt_active d p n cycling (Or.inr rfl)
  · exact covid_vkt_untouched d p n passenger_light (by decide)

/-- Claim C10: for every dataset and trip-reduction percentage, including
the disabled value 0, the trip-reduction stage leaves the scenario vkt of
passenger_light, diesel_bus, electric_bus, heavy_rail and light_rail
unchanged, and the only scenario vkt entries it writes are walking and
cycling, set to their new scenario pkt, and electric_light, set to its new
scenario pkt divided by the car occupancy. -/
theorem claim_c10 (d : Dataset) (p : ℚ) (n : Numbers) :
    (∀ m, m ∈ [passenger_light, diesel_bus, electric_bus, heavy_rail, light_rail] →
      (covid_trips d p n).vkt_2030_scenario m = d.vkt_2030_scenario m) ∧
    ((covid_trips d p n).vkt_2030_scenario walking =
      (covid_trips d p n).pkt_2030_scenario walking) ∧
    ((covid_trips d p n).vkt_2030_scenario cycling =
      (covid_trips d p n).pkt_2030_scenario cycling) ∧
    ((covid_trips d p n).vkt_2030_scenario electric_light =
      (covid_trips d p n).pkt_2030_scenario electric_light / n.car_occupancy) := by
  refine ⟨covid_vkt_untouched d p n, ?_, ?_, ?_⟩
  · rw [covid_pkt, covid_vkt_active d p n walking (Or.inl rfl)]
  · rw [covid_pkt, covid_vkt_active d p n cycling (Or.inr rfl)]
  · rw [covid_pkt, covid_vkt_el]

/-! No-op lemmas for the disabled value of each lever. -/

lemma pt_apply_nil (n : Numbers) (master d : Dataset) :
    pt_projects_apply n master d [] = d := by
  simp [pt_projects_apply]

lemma cycling_noop (n : Numbers) (d : Dataset) (c : ℚ) (hc : c ≤ 0) :
    cycling_changes n d c = d := by
  unfold cycling_changes
  rw [if_neg (not_lt.mpr hc)]

lemma bus_electric_noop (n : Numbers) (d : Dataset) (y : ℚ) (hy : y ≤ 2019) :
    bus_electric n d y = d := by
  unfold bus_electric
  rw [if_neg (not_lt.mpr hy)]

lemma car_electric_noop (d : Dataset) (f : ℚ) (hf : f ≤ 0) :
    car_electric d f = d := by
  unfold car_electric
  rw [if_neg (not_lt.mpr hf)]

lemma car_occupancy_noop (d : Dataset) (o : ℚ) (ho : o ≤ 0) :
    car_occupancy d o = d := by
  unfold car_occupancy
  rw [if_neg (not_lt.mpr ho)]

/-! Evaluation lemmas for the emissions stage. -/

lemma calc_em_other (d : Dataset) (ef : EmissionFactors) (e : ℚ) (m : Mode)
    (hm : m ≠ passenger_light) :
    (calculate_emissions d ef e).emissions_2030_scenario m =
      ef.values_2030_scenario m * d.vkt_2030_scenario m := by
  simp [calculate_emissions, Function.update, hm]

lemma calc_em_pl (d : Dataset) (ef : EmissionFactors) (e : ℚ) :
    (calculate_emissions d ef e).emissions_2030_scenario passenger_light =
      ef.values_2030_scenario passenger_light * d.vkt_2030_scenario passenger_light
        * (1 - e) := by
  simp [calculate_emissions, Function.update]

/-- With an empty project selection and every numeric lever at 0, the first
seven stages of the pipeline reduce to the trip-reduction stage at 0
followed by the emissions stage. -/
lemma update_graph_disabled (master : Dataset) (ef : EmissionFactors) :
    update_graph master ef 0 0 0 0 0 [] 0 0 =
      calculate_emissions (covid_trips master 0 (data_initialisation master)) ef 0 := by
  simp only [update_graph]
  rw [pt_apply_nil, bus_noop _ _ _ le_rfl, cycling_noop _ _ _ le_rfl,
    bus_electric_noop _ _ _ (by norm_num), car_electric_noop _ _ (by norm_num),
    car_occupancy_noop _ _ (by norm_num)]

/-! Frame lemmas: no stage writes the 2018 or 2030-baseline rows. -/

lemma base_rows_eq_rfl (d : Dataset) : base_rows_eq d d :=
  ⟨rfl, rfl, rfl, rfl, rfl, rfl⟩

lemma base_rows_eq_trans {a b c : Dataset}
    (h1 : base_rows_eq a b) (h2 : base_rows_eq b c) : base_rows_eq a c :=
  ⟨h1.1.trans h2.1, h1.2.1.trans h2.2.1, h1.2.2.1.trans h2.2.2.1,
    h1.2.2.2.1.trans h2.2.2.2.1, h1.2.2.2.2.1.trans h2.2.2.2.2.1,
    h1.2.2.2.2.2.trans h2.2.2.2.2.2⟩

lemma foldl_base {f : Dataset → Mode → Dataset}
    (hf : ∀ acc m, base_rows_eq (f acc m) acc) :
    ∀ (l : List Mode) (d : Dataset), base_rows_eq (List.foldl f d l) d
  | [], d => base_rows_eq_rfl d
  | m :: t, d => base_rows_eq_trans (foldl_base hf t (f d m)) (hf d m)

lemma foldl_base_pair {g : Dataset × ℚ → Mode → Dataset × ℚ}
    (hg : ∀ st m, base_rows_eq (g st m).1 st.1) :
    ∀ (l : List Mode) (st : Dataset × ℚ), base_rows_eq (List.foldl g st l).1 st.1
  | [], st => base_rows_eq_rfl st.1
  | m :: t, st => base_rows_eq_trans (foldl_base_pair hg t (g st m)) (hg st m)

lemma bus_step_base (n : Numbers) (bc : ℚ) (acc : Dataset) (m : Mode) :
    base_rows_eq (bus_step n bc acc m) acc := by
  unfold bus_step
  split_ifs <;> exact ⟨rfl, rfl, rfl, rfl, rfl, rfl⟩

lemma cycling_step_base (n : Numbers) (cc : ℚ) (st : Dataset × ℚ) (m : Mode) :
    base_rows_eq (cycling_step n cc st m).1 st.1 := by
  unfold cycling_step
  split_ifs <;> exact ⟨rfl, rfl, rfl, rfl, rfl, rfl⟩

lemma covid_step_base (p : ℚ) (n : Numbers) (acc : Dataset) (m : Mode) :
    base_rows_eq (covid_step p n acc m) acc := by
  unfold covid_step
  split_ifs <;> exact ⟨rfl, rfl, rfl, rfl, rfl, rfl⟩

lemma pt_apply_base (n : Numbers) (master d : Dataset) (l : List Project) :
    base_rows_eq (pt_projects_apply n master d l) d := by
  unfold pt_projects_apply
  split_ifs <;> exact ⟨rfl, rfl, rfl, rfl, rfl, rfl⟩

lemma bus_base (n : Numbers) (d : Dataset) (r : ℚ) :
    base_rows_eq (bus_ridership_changes n d r) d := by
  unfold bus_ridership_changes
  split_ifs
  · exact base_rows_eq_trans (foldl_base (bus_step_base n _) _ _)
      ⟨rfl, rfl, rfl, rfl, rfl, rfl⟩
  · exact base_rows_eq_rfl d

lemma cycling_base (n : Numbers) (d : Dataset) (c : ℚ) :
    base_rows_eq (cycling_changes n d c) d := by
  unfold cycling_changes
  split_ifs
  · exact base_rows_eq_trans (foldl_base_pair (cycling_step_base n _) _ _)
      ⟨rfl, rfl, rfl, rfl, rfl, rfl⟩
  · exact base_rows_eq_rfl d

lemma bus_electric_base (n : Numbers) (d : Dataset) (y : ℚ) :
    base_rows_eq (bus_electric n d y) d := by
  unfold bus_electric
  split_ifs <;> exact ⟨rfl, rfl, rfl, rfl, rfl, rfl⟩

lemma car_electric_base (d : Dataset) (f : ℚ) :
    base_rows_eq (car_electric d f) d := by
  unfold car_electric
  split_ifs <;> exact ⟨rfl, rfl, rfl, rfl, rfl, rfl⟩

lemma car_occupancy_base (d : Dataset) (o : ℚ) :
    base_rows_eq (car_occupancy d o) d := by
  unfold car_occupancy
  split_ifs <;> exact ⟨rfl, rfl, rfl, rfl, rfl, rfl⟩

lemma covid_base (d : Dataset) (p : ℚ) (n : Numbers) :
    base_rows_eq (covid_trips d p n) d :=
  foldl_base (covid_step_base p n) all_modes d

lemma calc_base (d : Dataset) (ef : EmissionFactors) (e : ℚ) :
    base_rows_eq (calculate_emissions d ef e) d :=
  ⟨rfl, rfl, rfl, rfl, rfl, rfl⟩

/-- Claim C6: for every dataset, every lever-settings vector and every
pipeline stage, the 2018 and 2030-baseline pkt, vkt and emissions rows are
unchanged by the stage and by a full pipeline evaluation; only the scenario
rows are ever written.  In this embedding every stage and the full pipeline
are pure functions returning a new dataset value, so the master dataset a
full evaluation copies from is never modified and each evaluation depends
only on its arguments. -/
theorem claim_c6 :
    (∀ (n : Numbers) (master d : Dataset) (l : List Project),
      base_rows_eq (pt_projects_apply n master d l) d) ∧
    (∀ (n : Numbers) (d : Dataset) (r : ℚ),
      base_rows_eq (bus_ridership_changes n d r) d) ∧
    (∀ (n : Numbers) (d : Dataset) (c : ℚ), base_rows_eq (cycling_changes n d c) d) ∧
    (∀ (n : Numbers) (d : Dataset) (y : ℚ), base_rows_eq (bus_electric n d y) d) ∧
    (∀ (d : Dataset) (f : ℚ), base_rows_eq (car_electric d f) d) ∧
    (∀ (d : Dataset) (p : ℚ) (n : Numbers), base_rows_eq (covid_trips d p n) d) ∧
    (∀ (d : Dataset) (o : ℚ), base_rows_eq (car_occupancy d o) d) ∧
    (∀ (d : Dataset) (ef : EmissionFactors) (e : ℚ),
      base_rows_eq (calculate_emissions d ef e) d) ∧
    (∀ (master : Dataset) (ef : EmissionFactors)
      (cyc bus busel occ carel : ℚ) (pt : List Project) (em cov : ℚ),
      base_rows_eq (update_graph master ef cyc bus busel occ carel pt em cov) master) := by
  refine ⟨pt_apply_base, bus_base, cycling_base, bus_electric_base, car_electric_base,
    covid_base, car_occupancy_base, calc_base, ?_⟩
  intro master ef cyc bus busel occ carel pt em cov
  unfold update_graph
  exact base_rows_eq_trans (calc_base _ _ _)
    (base_rows_eq_trans (car_occupancy_base _ _)
      (base_rows_eq_trans (covid_base _ _ _)
        (base_rows_eq_trans (car_electric_base _ _)
          (base_rows_eq_trans (bus_electric_base _ _ _)
            (base_rows_eq_trans (cycling_base _ _ _)
              (base_rows_eq_trans (bus_base _ _ _)
                (pt_apply_base _ _ _ _)))))))

/-! Claims about the electrification stages. -/

/-- Claim C4: the bus-electrification stage with a start year later than the
2019 reference year conserves the summed scenario pkt and the summed
scenario vkt over diesel_bus and electric_bus, and the car-electrification
stage with a positive fraction conserves the summed scenario pkt and vkt
over passenger_light and electric_light. -/
theorem claim_c4 :
    (∀ (n : Numbers) (d : Dataset) (y : ℚ), 2019 < y →
      ((bus_electric n d y).pkt_2030_scenario diesel_bus +
          (bus_electric n d y).pkt_2030_scenario electric_bus =
        d.pkt_2030_scenario diesel_bus + d.pkt_2030_scenario electric_bus) ∧
      ((bus_electric n d y).vkt_2030_scenario diesel_bus +
          (bus_electric n d y).vkt_2030_scenario electric_bus =
        d.vkt_2030_scenario diesel_bus + d.vkt_2030_scenario electric_bus)) ∧
    (∀ (d : Dataset) (f : ℚ), 0 < f →
      ((car_electric d f).pkt_2030_scenario passenger_light +
          (car_electric d f).pkt_2030_scenario electric_light =
        d.pkt_2030_scenario passenger_light + d.pkt_2030_scenario electric_light) ∧
      ((car_electric d f).vkt_2030_scenario passenger_light +
          (car_electric d f).vkt_2030_scenario electric_light =
        d.vkt_2030_scenario passenger_light + d.vkt_2030_scenario electric_light)) := by
  constructor
  · intro n d y hy
    constructor <;> (simp [bus_electric, hy, Function.update]; ring)
  · intro d f hf
    constructor <;> (simp [car_electric, hf, Function.update]; ring)

/-- Witness for claim C4, at the concrete scenario of the spec: applying a
car-electrification fraction of 0.25 to a scenario passenger_light vkt of
one million leaves 750000 on passenger_light, puts 250000 on
electric_light, and keeps the total at one million; the bus stage at start
year 2025 keeps the total scenario bus vkt at 600. -/
theorem claim_c4_witness :
    ((car_electric elecData (1 / 4)).vkt_2030_scenario passenger_light +
      (car_electric elecData (1 / 4)).vkt_2030_scenario electric_light = 1000000) ∧
    ((car_electric elecData (1 / 4)).vkt_2030_scenario passenger_light = 750000) ∧
    ((car_electric elecData (1 / 4)).vkt_2030_scenario electric_light = 250000) ∧
    ((bus_electric (data_initialisation elecData) elecData 2025).vkt_2030_scenario diesel_bus +
      (bus_electric (data_initialisation elecData) elecData 2025).vkt_2030_scenario
        electric_bus = 600) := by
  refine ⟨?_, ?_, ?_, ?_⟩
  · rw [(claim_c4.2 elecData (1 / 4) (by norm_num)).2]
    norm_num [elecData]
  · simp [car_electric, elecData, Function.update]
    norm_num
  · simp [car_electric, elecData, Function.update]
    norm_num
  · rw [(claim_c4.1 (data_initialisation elecData) elecData 2025 (by norm_num)).2]
    norm_num [elecData]

/-! The cycling stage, evaluated at a failing input. -/

/-- Claim C3 evaluation at a failing input: on a dataset with baseline
private pkt 100, 50, 30, 20 and every scenario vkt cell 20, the cycling
stage at target multiplier 2 adds the increase of 20 to the scenario
cycling pkt as claimed, but adds the stale walking draw-down of minus ten
thirds to the scenario cycling vkt instead of adding the increase of 20:
the Python loop variable named effect is reused unrecomputed at the cycling
iteration. -/
theorem claim_c3_eval :
    ((cycling_changes (data_initialisation failData3) failData3 2).pkt_2030_scenario cycling =
      failData3.pkt_2030_scenario cycling + 20) ∧
    ((cycling_changes (data_initialisation failData3) failData3 2).vkt_2030_scenario cycling =
      failData3.vkt_2030_scenario cycling - 10 / 3) ∧
    ((cycling_changes (data_initialisation failData3) failData3 2).vkt_2030_scenario cycling ≠
      failData3.vkt_2030_scenario cycling + 20) := by
  have h2 : (0 : ℚ) < 2 := by norm_num
  refine ⟨?_, ?_, ?_⟩ <;>
    simp [cycling_changes, h2, cycling_step, private_modes, Function.update,
      failData3, data_initialisation] <;>
    norm_num

/-! Claims about the full pipeline with all levers disabled. -/

/-- Claim C1 counterexample: on a baseline dataset whose scenario rows copy
the baseline rows but whose electric_light vkt is not its pkt divided by
the 1.58 car occupancy, the full pipeline with every lever disabled still
rewrites the scenario electric_light vkt (to 100, from a baseline of 158),
so the scenario rows are not numerically equal to the 2030-baseline rows. -/
theorem claim_c1_cex :
    (update_graph cexData1 cexEF1 0 0 0 0 0 [] 0 0).vkt_2030_scenario electric_light ≠
      cexData1.vkt_2030_baseline electric_light := by
  rw [update_graph_disabled]
  show (covid_trips cexData1 0 (data_initialisation cexData1)).vkt_2030_scenario
    electric_light ≠ _
  rw [covid_vkt_el]
  norm_num [cexData1, data_initialisation]

/-- Claim C1 as amended: with every lever disabled the pipeline reproduces
the 2030-baseline rows provided the baseline data is consistent with the
recomputations the trip-reduction stage performs even at its disabled
value, namely that baseline walking and cycling vkt equal their pkt and
baseline electric_light vkt equals its pkt divided by the car occupancy,
and provided the scenario emission-factor row equals the baseline one
(the emissions stage reads the scenario factor row, not the baseline row);
then every scenario row equals the corresponding 2030-baseline row and the
scenario emissions equal the baseline emission factor times the baseline
vkt for every mode. -/
theorem claim_c1_amended (master : Dataset) (ef : EmissionFactors)
    (hpkt : ∀ m, master.pkt_2030_scenario m = master.pkt_2030_baseline m)
    (hvkt : ∀ m, master.vkt_2030_scenario m = master.vkt_2030_baseline m)
    (hw : master.vkt_2030_baseline walking = master.pkt_2030_baseline walking)
    (hc : master.vkt_2030_baseline cycling = master.pkt_2030_baseline cycling)
    (hel : master.vkt_2030_baseline electric_light =
      master.pkt_2030_baseline electric_light / (data_initialisation master).car_occupancy)
    (hef : ∀ m, ef.values_2030_scenario m = ef.values_2030_baseline m) :
    (∀ m, (update_graph master ef 0 0 0 0 0 [] 0 0).pkt_2030_scenario m =
      master.pkt_2030_baseline m) ∧
    (∀ m, (update_graph master ef 0 0 0 0 0 [] 0 0).vkt_2030_scenario m =
      master.vkt_2030_baseline m) ∧
    (∀ m, (update_graph master ef 0 0 0 0 0 [] 0 0).emissions_2030_scenario m =
      ef.values_2030_baseline m * master.vkt_2030_baseline m) := by
  rw [update_graph_disabled]
  have hcpkt : ∀ m,
      (covid_trips master 0 (data_initialisation master)).pkt_2030_scenario m =
        master.pkt_2030_baseline m := by
    intro m
    rw [covid_pkt, hpkt m]
    norm_num
  have hcvkt : ∀ m,
      (covid_trips master 0 (data_initialisation master)).vkt_2030_scenario m =
        master.vkt_2030_baseline m := by
    intro m
    cases m
    case passenger_light =>
      rw [covid_vkt_untouched _ _ _ _ (by decide)]
      exact hvkt _
    case electric_light =>
      rw [covid_vkt_el, hpkt, hel]
      norm_num
    case walking =>
      rw [covid_vkt_active _ _ _ _ (Or.inl rfl), hpkt, hw]
      norm_num
    case cycling =>
      rw [covid_vkt_active _ _ _ _ (Or.inr rfl), hpkt, hc]
      norm_num
    case diesel_bus =>
      rw [covid_vkt_untouched _ _ _ _ (by decide)]
      exact hvkt _
    case electric_bus =>
      rw [covid_vkt_untouched _ _ _ _ (by decide)]
      exact hvkt _
    case heavy_rail =>
      rw [covid_vkt_untouched _ _ _ _ (by decide)]
      exact hvkt _
    case light_rail =>
      rw [covid_vkt_untouched _ _ _ _ (by decide)]
      exact hvkt _
  refine ⟨fun m => hcpkt m, fun m => hcvkt m, ?_⟩
  intro m
  by_cases hm : m = passenger_light
  · subst hm
    rw [calc_em_pl, hef, hcvkt]
    ring
  · rw [calc_em_other _ _ _ _ hm, hef, hcvkt]

/-- Witness for claim C1 at a concrete consistent dataset: the disabled
pipeline reproduces the baseline electric_light vkt and the baseline
diesel-bus emissions product. -/
theorem claim_c1_witness :
    ((update_graph consistData consistEF 0 0 0 0 0 [] 0 0).vkt_2030_scenario
      electric_light = consistData.vkt_2030_baseline electric_light) ∧
    ((update_graph consistData consistEF 0 0 0 0 0 [] 0 0).emissions_2030_scenario
      diesel_bus =
      consistEF.values_2030_baseline diesel_bus * consistData.vkt_2030_baseline diesel_bus) := by
  have h := claim_c1_amended consistData consistEF
    (fun m => rfl) (fun m => rfl) rfl rfl
    (by norm_num [consistData, data_initialisation]) (fun m => rfl)
  exact ⟨h.2.1 electric_light, h.2.2 diesel_bus⟩

/-! Evaluation lemmas for the project effect rows. -/

lemma pt_pkt_primary (n : Numbers) (d : Dataset) (p : Project)
    (hprim : p.primary_mode ∈ pt_modes) :
    (pt_effects_rows n d p).pkt p.primary_mode = primary_pkt_effect n p := by
  simp only [pt_modes, List.mem_cons, List.not_mem_nil, or_false] at hprim
  rcases hprim with h | h | h | h <;>
    simp [pt_effects_rows, pt_effect_step, pt_zero_step, private_modes, pt_modes,
      Function.update, h]

lemma pt_pkt_private (n : Numbers) (d : Dataset) (p : Project)
    (hprim : p.primary_mode ∈ pt_modes) (m : Mode) (hm : m ∈ private_modes) :
    (pt_effects_rows n d p).pkt m =
      - d.pkt_2030_baseline m / n.mode_sum_pkt * primary_pkt_effect n p := by
  simp only [pt_modes, List.mem_cons, List.not_mem_nil, or_false] at hprim
  simp only [private_modes, List.mem_cons, List.not_mem_nil, or_false] at hm
  rcases hprim with h | h | h | h <;> rcases hm with rfl | rfl | rfl | rfl <;>
    (simp [pt_effects_rows, pt_effect_step, pt_zero_step, private_modes, pt_modes,
      Function.update, h]
     try ring)

lemma pt_vkt_light (n : Numbers) (d : Dataset) (p : Project)
    (hprim : p.primary_mode ∈ pt_modes) (m : Mode)
    (hm : m = passenger_light ∨ m = electric_light) :
    (pt_effects_rows n d p).vkt m = (pt_effects_rows n d p).pkt m / n.car_occupancy := by
  simp only [pt_modes, List.mem_cons, List.not_mem_nil, or_false] at hprim
  rcases hprim with h | h | h | h <;> rcases hm with rfl | rfl <;>
    (simp [pt_effects_rows, pt_effect_step, pt_zero_step, private_modes, pt_modes,
      Function.update, h]
     try ring)

lemma pt_vkt_active (n : Numbers) (d : Dataset) (p : Project)
    (hprim : p.primary_mode ∈ pt_modes) (m : Mode)
    (hm : m = walking ∨ m = cycling) :
    (pt_effects_rows n d p).vkt m = (pt_effects_rows n d p).pkt m := by
  simp only [pt_modes, List.mem_cons, List.not_mem_nil, or_false] at hprim
  rcases hprim with h | h | h | h <;> rcases hm with rfl | rfl <;>
    (simp [pt_effects_rows, pt_effect_step, pt_zero_step, private_modes, pt_modes,
      Function.update, h]
     try ring)

lemma pt_zero (n : Numbers) (d : Dataset) (p : Project)
    (hprim : p.primary_mode ∈ pt_modes) (m : Mode) (hm : m ∈ pt_modes)
    (hne : m ≠ p.primary_mode) :
    (pt_effects_rows n d p).pkt m = 0 ∧ (pt_effects_rows n d p).vkt m = 0 := by
  simp only [pt_modes, List.mem_cons, List.not_mem_nil, or_false] at hprim hm
  rcases hprim with h | h | h | h <;> rcases hm with rfl | rfl | rfl | rfl <;>
    first
      | exact absurd h.symm hne
      | (constructor <;>
          simp [pt_effects_rows, pt_effect_step, pt_zero_step, private_modes, pt_modes,
            Function.update, h])

/-! Sign and denominator lemmas. -/

lemma primary_pkt_effect_nonneg (n : Numbers) (p : Project)
    (hpf : 0 < p.peak_freq) (hdist : 0 ≤ p.distance) (hcap : 0 ≤ p.vehicle_capacity)
    (hann : 0 ≤ n.pkt_annualisation) :
    0 ≤ primary_pkt_effect n p := by
  unfold primary_pkt_effect
  exact mul_nonneg (mul_nonneg (mul_nonneg (mul_nonneg (mul_nonneg
    (div_nonneg (by norm_num) hpf.le) hdist) hann) hcap) (by norm_num)) (by norm_num)

lemma mode_sum_pkt_nonneg (d : Dataset) (hb : ∀ m, 0 ≤ d.pkt_2030_baseline m) :
    0 ≤ (data_initialisation d).mode_sum_pkt := by
  have h1 := hb passenger_light
  have h2 := hb electric_light
  have h3 := hb walking
  have h4 := hb cycling
  simp only [data_initialisation, private_modes, List.map_cons, List.map_nil,
    List.sum_cons, List.sum_nil]
  linarith

lemma mode_sum_pkt_pos (d : Dataset)
    (hb : ∀ m, m ∈ private_modes → 0 < d.pkt_2030_baseline m) :
    0 < (data_initialisation d).mode_sum_pkt := by
  have h1 := hb passenger_light (by decide)
  have h2 := hb electric_light (by decide)
  have h3 := hb walking (by decide)
  have h4 := hb cycling (by decide)
  simp only [data_initialisation, private_modes, List.map_cons, List.map_nil,
    List.sum_cons, List.sum_nil]
  linarith

/-! Claims about the project effect table. -/

/-- Claim C7: in the project effect table, (1) the pkt and vkt effects on
every transit mode other than the primary mode of the project are exactly
zero; (2) the pkt effect on every private or active mode is minus that
mode's baseline share of the total private baseline pkt times the
primary-mode pkt effect, and is non-positive when the baseline pkt values
and the project service characteristics are non-negative with positive
frequencies; (3) the vkt effect on a private mode is the pkt effect divided
by the car occupancy for the two light modes and equal to the pkt effect
for walking and cycling. -/
theorem claim_c7 (d : Dataset) (p : Project)
    (hprim : p.primary_mode ∈ pt_modes)
    (hb : ∀ m, 0 ≤ d.pkt_2030_baseline m)
    (hpf : 0 < p.peak_freq) (hopf : 0 < p.off_peak_freq)
    (hdist : 0 ≤ p.distance) (hcap : 0 ≤ p.vehicle_capacity) :
    (∀ m, m ∈ pt_modes → m ≠ p.primary_mode →
      (pt_effects_rows (data_initialisation d) d p).pkt m = 0 ∧
      (pt_effects_rows (data_initialisation d) d p).vkt m = 0) ∧
    (∀ m, m ∈ private_modes →
      (pt_effects_rows (data_initialisation d) d p).pkt m =
        - d.pkt_2030_baseline m / (data_initialisation d).mode_sum_pkt
          * (pt_effects_rows (data_initialisation d) d p).pkt p.primary_mode ∧
      (pt_effects_rows (data_initialisation d) d p).pkt m ≤ 0) ∧
    (∀ m, m = passenger_light ∨ m = electric_light →
      (pt_effects_rows (data_initialisation d) d p).vkt m =
        (pt_effects_rows (data_initialisation d) d p).pkt m
          / (data_initialisation d).car_occupancy) ∧
    (∀ m, m = walking ∨ m = cycling →
      (pt_effects_rows (data_initialisation d) d p).vkt m =
        (pt_effects_rows (data_initialisation d) d p).pkt m) := by
  have hF : 0 ≤ primary_pkt_effect (data_initialisation d) p :=
    primary_pkt_effect_nonneg _ p hpf hdist hcap (by norm_num [data_initialisation])
  have hS : 0 ≤ (data_initialisation d).mode_sum_pkt := mode_sum_pkt_nonneg d hb
  refine ⟨fun m hm hne => pt_zero _ d p hprim m hm hne, ?_,
    fun m hm => pt_vkt_light _ d p hprim m hm,
    fun m hm => pt_vkt_active _ d p hprim m hm⟩
  intro m hm
  have heq := pt_pkt_private (data_initialisation d) d p hprim m hm
  refine ⟨by rw [heq, pt_pkt_primary _ d p hprim], ?_⟩
  rw [heq, neg_div, neg_mul]
  exact neg_nonpos_of_nonneg (mul_nonneg (div_nonneg (hb m) hS) hF)

/-- Witness for claim C7 at a concrete dataset and project with diesel_bus
as primary mode: the electric_bus effect is zero, the walking pkt effect is
non-positive, and the walking vkt effect equals its pkt effect. -/
theorem claim_c7_witness :
    ((pt_effects_rows (data_initialisation sampleData) sampleData sampleProject).pkt
      electric_bus = 0) ∧
    ((pt_effects_rows (data_initialisation sampleData) sampleData sampleProject).pkt
      walking ≤ 0) ∧
    ((pt_effects_rows (data_initialisation sampleData) sampleData sampleProject).vkt
      walking =
      (pt_effects_rows (data_initialisation sampleData) sampleData sampleProject).pkt
        walking) := by
  have h := claim_c7 sampleData sampleProject (by decide)
    (fun m => by cases m <;> norm_num [sampleData])
    (by norm_num [sampleProject]) (by norm_num [sampleProject])
    (by norm_num [sampleProject]) (by norm_num [sampleProject])
  exact ⟨(h.1 electric_bus (by decide) (by decide)).1,
    (h.2.1 walking (by decide)).2,
    h.2.2.2 walking (Or.inl rfl)⟩

/-- Claim C8: with positive private baseline pkt values, after the
bus-ridership stage alone or the transit-project stage alone, the ratio of
the scenario pkt decreases of any two private or active modes, neither of
which is the mode targeted by the lever, equals the ratio of their
2030-baseline pkt values. -/
theorem claim_c8 (d : Dataset)
    (hb : ∀ m, m ∈ private_modes → 0 < d.pkt_2030_baseline m) :
    (∀ r : ℚ, 0 < r → 0 < d.pkt_2030_baseline diesel_bus →
      ∀ m1, m1 ∈ private_modes → ∀ m2, m2 ∈ private_modes →
        (d.pkt_2030_scenario m1 -
            (bus_ridership_changes (data_initialisation d) d r).pkt_2030_scenario m1) /
          (d.pkt_2030_scenario m2 -
            (bus_ridership_changes (data_initialisation d) d r).pkt_2030_scenario m2) =
          d.pkt_2030_baseline m1 / d.pkt_2030_baseline m2) ∧
    (∀ ps : List Project, ps ≠ [] → (∀ p ∈ ps, p.primary_mode ∈ pt_modes) →
      0 < (ps.map fun p => primary_pkt_effect (data_initialisation d) p).sum →
      ∀ m1, m1 ∈ private_modes → ∀ m2, m2 ∈ private_modes →
        (d.pkt_2030_scenario m1 -
            (pt_projects_apply (data_initialisation d) d d ps).pkt_2030_scenario m1) /
          (d.pkt_2030_scenario m2 -
            (pt_projects_apply (data_initialisation d) d d ps).pkt_2030_scenario m2) =
          d.pkt_2030_baseline m1 / d.pkt_2030_baseline m2) := by
  have hS : 0 < (data_initialisation d).mode_sum_pkt := mode_sum_pkt_pos d hb
  constructor
  · intro r hr hB m1 hm1 m2 hm2
    rw [bus_pkt_private _ _ _ _ hm1, bus_pkt_private _ _ _ _ hm2, if_pos hr, if_pos hr,
      sub_sub_cancel, sub_sub_cancel]
    have hSne := hS.ne'
    have hBne := hB.ne'
    have hrne := hr.ne'
    have hb1ne := (hb m1 hm1).ne'
    have hb2ne := (hb m2 hm2).ne'
    field_simp
    ring
  · intro ps hps hprims hE m1 hm1 m2 hm2
    have happ : ∀ m, m ∈ private_modes →
        (pt_projects_apply (data_initialisation d) d d ps).pkt_2030_scenario m =
          d.pkt_2030_scenario m +
            - d.pkt_2030_baseline m / (data_initialisation d).mode_sum_pkt *
              (ps.map fun p => primary_pkt_effect (data_initialisation d) p).sum := by
      intro m hm
      have hpsE : ps.isEmpty = false := by
        cases ps with
        | nil => exact absurd rfl hps
        | cons a t => rfl
      have hmap : (ps.map fun p => (pt_effects_rows (data_initialisation d) d p).pkt m) =
          ps.map fun p =>
            - d.pkt_2030_baseline m / (data_initialisation d).mode_sum_pkt
              * primary_pkt_effect (data_initialisation d) p :=
        List.map_congr_left fun p hp => pt_pkt_private _ d p (hprims p hp) m hm
      simp only [pt_projects_apply, hpsE, Bool.false_eq_true, if_false]
      rw [hmap, List.sum_map_mul_left]
    rw [happ m1 hm1, happ m2 hm2]
    have h1 : d.pkt_2030_scenario m1 -
        (d.pkt_2030_scenario m1 +
          - d.pkt_2030_baseline m1 / (data_initialisation d).mode_sum_pkt *
            (ps.map fun p => primary_pkt_effect (data_initialisation d) p).sum) =
        d.pkt_2030_baseline m1 / (data_initialisation d).mode_sum_pkt *
          (ps.map fun p => primary_pkt_effect (data_initialisation d) p).sum := by
      ring
    have h2 : d.pkt_2030_scenario m2 -
        (d.pkt_2030_scenario m2 +
          - d.pkt_2030_baseline m2 / (data_initialisation d).mode_sum_pkt *
            (ps.map fun p => primary_pkt_effect (data_initialisation d) p).sum) =
        d.pkt_2030_baseline m2 / (data_initialisation d).mode_sum_pkt *
          (ps.map fun p => primary_pkt_effect (data_initialisation d) p).sum := by
      ring
    rw [h1, h2]
    have hSne := hS.ne'
    have hEne := hE.ne'
    have hb1ne := (hb m1 hm1).ne'
    have hb2ne := (hb m2 hm2).ne'
    field_simp
    ring

/-- Witness for claim C8 at a concrete dataset: after a bus-ridership
increase of 0.4 the ratio of the passenger_light and electric_light pkt
decreases equals the ratio of their baseline pkt values, and likewise after
applying the sample transit project. -/
theorem claim_c8_witness :
    ((sampleData.pkt_2030_scenario passenger_light -
        (bus_ridership_changes (data_initialisation sampleData) sampleData
          (2 / 5)).pkt_2030_scenario passenger_light) /
      (sampleData.pkt_2030_scenario electric_light -
        (bus_ridership_changes (data_initialisation sampleData) sampleData
          (2 / 5)).pkt_2030_scenario electric_light) =
      sampleData.pkt_2030_baseline passenger_light /
        sampleData.pkt_2030_baseline electric_light) ∧
    ((sampleData.pkt_2030_scenario passenger_light -
        (pt_projects_apply (data_initialisation sampleData) sampleData sampleData
          [sampleProject]).pkt_2030_scenario passenger_light) /
      (sampleData.pkt_2030_scenario electric_light -
        (pt_projects_apply (data_initialisation sampleData) sampleData sampleData
          [sampleProject]).pkt_2030_scenario electric_light) =
      sampleData.pkt_2030_baseline passenger_light /
        sampleData.pkt_2030_baseline electric_light) := by
  have hb : ∀ m, m ∈ private_modes → 0 < sampleData.pkt_2030_baseline m := by
    intro m hm
    simp only [private_modes, List.mem_cons, List.not_mem_nil, or_false] at hm
    rcases hm with rfl | rfl | rfl | rfl <;> norm_num [sampleData]
  have h := claim_c8 sampleData hb
  refine ⟨h.1 (2 / 5) (by norm_num) (by norm_num [sampleData]) passenger_light (by decide)
    electric_light (by decide), ?_⟩
  refine h.2 [sampleProject] (by simp) (by simp [sampleProject, pt_modes]) ?_
    passenger_light (by decide) electric_light (by decide)
  norm_num [primary_pkt_effect, sampleProject, data_initialisation]

end TE
